import Mathlib

/-!
Shallow embedding of the music-theory core of `gtr-cof` (src/gtr-cof.ts):
the pitch catalog, mode catalog, circle of fifths, scale construction,
chord classification and chord-membership annotation, together with
theorems settling the specification's claims about them.
-/

namespace music

/-- Embeds the TypeScript interface `Note` (src/gtr-cof.ts lines 43-46):
a display name and a semitone index. -/
structure Note where
  name : String
  index : Nat
deriving DecidableEq, Repr

instance : Inhabited Note := ⟨{ name := "", index := 0 }⟩

/-- Embeds the TypeScript interface `Mode` (lines 58-61). -/
structure Mode where
  name : String
  index : Nat
deriving DecidableEq, Repr

instance : Inhabited Mode := ⟨{ name := "", index := 0 }⟩

/-- The fixed 12-pitch catalog `music.notes` (lines 5-18). -/
def notes : List Note :=
  [ { name := "C",  index := 0 },
    { name := "C#", index := 1 },
    { name := "D",  index := 2 },
    { name := "D#", index := 3 },
    { name := "E",  index := 4 },
    { name := "F",  index := 5 },
    { name := "F#", index := 6 },
    { name := "G",  index := 7 },
    { name := "G#", index := 8 },
    { name := "A",  index := 9 },
    { name := "A#", index := 10 },
    { name := "B",  index := 11 } ]

/-- The fixed 7-mode catalog `music.modes` (lines 20-28). -/
def modes : List Mode :=
  [ { name := "Lydian", index := 3 },
    { name := "Major / Ionian", index := 0 },
    { name := "Mixolydian", index := 4 },
    { name := "Dorian", index := 1 },
    { name := "N Minor / Aolian", index := 5 },
    { name := "Phrygian", index := 2 },
    { name := "Locrian", index := 6 } ]

/-- The diatonic step pattern `scaleTones` (line 39). -/
def scaleTones : List Nat := [2, 2, 1, 2, 2, 2, 1]

/-- The roman-numeral degree labels `romanNumeral` (line 41). -/
def romanNumeral : List String := ["i", "ii", "iii", "iv", "v", "vi", "vii"]

/-- Embeds `type Triad = [Note, Note, Note]` (line 48); slot 0 is `t.1`,
slot 1 is `t.2.1`, slot 2 is `t.2.2`. -/
abbrev Triad := Note × Note × Note

/-- Embeds the TypeScript enum `ChordType` (line 63). -/
inductive ChordType where
  | Major : ChordType
  | Minor : ChordType
  | Diminished : ChordType
deriving DecidableEq, Repr

/-- Embeds the TypeScript interface `ScaleNote` (lines 50-56): a `Note`
extended with its scale position, label, diatonic triad, chord type and
the optional chord-membership marker `chordNote` (absent = `none`). -/
structure ScaleNote where
  name : String
  index : Nat
  degree : Nat
  degreeName : String
  triad : Triad
  chordType : ChordType
  chordNote : Option Nat
deriving DecidableEq, Repr

instance : Inhabited ScaleNote :=
  ⟨{ name := "", index := 0, degree := 0, degreeName := "",
     triad := (default, default, default), chordType := ChordType.Major,
     chordNote := none }⟩

/-- The underlying pitch of a scale degree (its `name`/`index` pair). -/
def ScaleNote.note (s : ScaleNote) : Note := { name := s.name, index := s.index }

/-- Embeds `interval(a, b)` (lines 127-129): ascending-only circular
semitone distance from `a` to `b`. -/
def interval (a b : Note) : Nat :=
  if a.index ≤ b.index then b.index - a.index else (b.index + 12) - a.index

/-- Embeds `getChordType(triad)` (lines 118-125): first match wins among
the diminished test, the minor test, and the major fallback. -/
def getChordType (t : Triad) : ChordType :=
  if interval t.1 t.2.2 = 6 then ChordType.Diminished
  else if interval t.1 t.2.1 = 3 then ChordType.Minor
  else ChordType.Major

/-- Embeds `fifths()` (lines 65-75): the loop state is the accumulated
list together with the current note; each of the 12 iterations emits the
current note and advances it by 7 semitones mod 12. -/
def fifths : List Note :=
  ((List.range 12).foldl
    (fun (s : List Note × Note) _ =>
      (s.1 ++ [s.2], notes.getD ((s.2.index + 7) % 12) default))
    ([], notes.getD 0 default)).1

/-- Embeds the first loop of `scale(tonic, mode)` (lines 78-85): the loop
state is the accumulated raw-pitch list together with `noteIndex`; each of
the 7 iterations pushes `notes[noteIndex]` and advances `noteIndex` by the
step `scaleTones[(i + mode.index) % 7]`, mod 12. -/
def notesOfScale (tonic : Note) (mode : Mode) : List Note :=
  ((List.range 7).foldl
    (fun (s : List Note × Nat) i =>
      (s.1 ++ [notes.getD s.2 default],
       (s.2 + scaleTones.getD ((i + mode.index) % 7) 0) % 12))
    ([], tonic.index)).1

/-- Embeds the second loop of `scale(tonic, mode)` (lines 87-104): for each
position `i`, build the triad from raw pitches `i`, `(i+2) % 7`, `(i+4) % 7`
and assemble the `ScaleNote` literal; `chordNote` is absent (`none`). -/
def scale (tonic : Note) (mode : Mode) : List ScaleNote :=
  let nos := notesOfScale tonic mode
  (List.range 7).map (fun i =>
    let note := nos.getD i default
    let triad : Triad :=
      (nos.getD i default, nos.getD ((i + 2) % 7) default,
       nos.getD ((i + 4) % 7) default)
    { name := note.name, index := note.index, degree := i,
      degreeName := romanNumeral.getD i "", triad := triad,
      chordType := getChordType triad, chordNote := none })

/-- Embeds the inner loop of `appendTriad` (lines 109-113) acting on one
scale note: for `i` = 0, 1, 2 in order, if the note's name equals the name
of triad slot `i`, set `chordNote` to `i` (a later match overwrites an
earlier one, exactly as in the source loop, which has no break). -/
def appendTriadNote (t : Triad) (n : ScaleNote) : ScaleNote :=
  let n0 := if n.name = t.1.name then { n with chordNote := some 0 } else n
  let n1 := if n0.name = t.2.1.name then { n0 with chordNote := some 1 } else n0
  if n1.name = t.2.2.name then { n1 with chordNote := some 2 } else n1

/-- Embeds `appendTriad(scale, triad)` (lines 107-116): every scale note is
processed by the inner loop; the (updated) scale is returned. -/
def appendTriad (s : List ScaleNote) (t : Triad) : List ScaleNote :=
  s.map (appendTriadNote t)

end music

open music

/-- The catalog pitch C (index 0). -/
def noteC : Note := music.notes.getD 0 default

/-- The catalog pitch C# (index 1). -/
def noteCs : Note := music.notes.getD 1 default

/-- The catalog pitch D# (index 3). -/
def noteDs : Note := music.notes.getD 3 default

/-- The catalog pitch E (index 4). -/
def noteE : Note := music.notes.getD 4 default

/-- The catalog pitch F# (index 6). -/
def noteFs : Note := music.notes.getD 6 default

/-- The catalog pitch G (index 7). -/
def noteG : Note := music.notes.getD 7 default

/-- The catalog mode Major / Ionian (list position 1, rotation index 0). -/
def modeIonian : Mode := music.modes.getD 1 default

/-- Claim C1: for every tonic in the 12-pitch catalog and every mode in the
7-mode catalog, `scale` produces 7 pitches with pitch 0 equal to the tonic
and every successor index obtained by adding the step
`scaleTones[(i + mode.index) % 7]` mod 12. -/
theorem scale_follows_step_pattern :
    ∀ tonic ∈ music.notes, ∀ mode ∈ music.modes,
      (music.scale tonic mode).length = 7 ∧
      ((music.scale tonic mode).getD 0 default).note = tonic ∧
      ∀ i < 6,
        ((music.scale tonic mode).getD (i + 1) default).index =
          (((music.scale tonic mode).getD i default).index +
            music.scaleTones.getD ((i + mode.index) % 7) 0) % 12 := by
  decide

/-- Witness for C1 at tonic C, mode Ionian, step 0. -/
theorem scale_follows_step_pattern_witness :
    noteC ∈ music.notes ∧ modeIonian ∈ music.modes ∧ 0 < 6 ∧
      ((music.scale noteC modeIonian).getD 1 default).index =
        (((music.scale noteC modeIonian).getD 0 default).index +
          music.scaleTones.getD ((0 + modeIonian.index) % 7) 0) % 12 :=
  ⟨by decide, by decide, by decide,
    (scale_follows_step_pattern noteC (by decide) modeIonian
      (by decide)).2.2 0 (by decide)⟩

/-- Claim C2: `scale` at tonic C and mode Major/Ionian yields pitch names
C,D,E,F,G,A,B, degree names i..vii, and chord types
Major,Minor,Minor,Major,Major,Minor,Diminished, in order. -/
theorem scale_C_ionian_concrete :
    (music.scale noteC modeIonian).map (fun n => n.name) =
        ["C", "D", "E", "F", "G", "A", "B"] ∧
      (music.scale noteC modeIonian).map (fun n => n.degreeName) =
        ["i", "ii", "iii", "iv", "v", "vi", "vii"] ∧
      (music.scale noteC modeIonian).map (fun n => n.chordType) =
        [ChordType.Major, ChordType.Minor, ChordType.Minor, ChordType.Major,
          ChordType.Major, ChordType.Minor, ChordType.Diminished] := by
  decide

/-- Claim C3: `getChordType` evaluates its rules in order with first match
winning — Diminished iff the ascending circular distance from slot 0 to
slot 2 is 6, else Minor iff the distance from slot 0 to slot 1 is 3, else
Major; in particular (C,D#,F#) is Diminished, (C,D#,G) is Minor and
(C,E,G) is Major. -/
theorem getChordType_rule_order (a b c : Note) :
    (music.getChordType (a, b, c) = ChordType.Diminished ↔
        music.interval a c = 6) ∧
      (music.interval a c ≠ 6 →
        (music.getChordType (a, b, c) = ChordType.Minor ↔
          music.interval a b = 3)) ∧
      (music.interval a c ≠ 6 → music.interval a b ≠ 3 →
        music.getChordType (a, b, c) = ChordType.Major) ∧
      music.getChordType (noteC, noteDs, noteFs) = ChordType.Diminished ∧
      music.getChordType (noteC, noteDs, noteG) = ChordType.Minor ∧
      music.getChordType (noteC, noteE, noteG) = ChordType.Major := by
  refine ⟨?_, ?_, ?_, by decide, by decide, by decide⟩ <;>
    by_cases h1 : music.interval a c = 6 <;>
      by_cases h2 : music.interval a b = 3 <;>
        simp [music.getChordType, h1, h2]

/-- Witness for C3 at the triad (C, E, G). -/
theorem getChordType_rule_order_witness :
    music.interval noteC noteG ≠ 6 ∧ music.interval noteC noteE ≠ 3 ∧
      music.getChordType (noteC, noteE, noteG) = ChordType.Major :=
  ⟨by decide, by decide,
    (getChordType_rule_order noteC noteE noteG).2.2.1 (by decide) (by decide)⟩

/-- Claim C4: `fifths` returns 12 pitches, the first is C, each successor
index is the previous index plus 7 mod 12, and each of the 12 catalog
pitches appears exactly once. -/
theorem fifths_is_circle_of_fifths :
    music.fifths.length = 12 ∧
      music.fifths.getD 0 default = music.notes.getD 0 default ∧
      (∀ i < 11, (music.fifths.getD (i + 1) default).index =
        ((music.fifths.getD i default).index + 7) % 12) ∧
      (∀ n ∈ music.notes, music.fifths.count n = 1) ∧
      music.fifths.Nodup := by
  decide

/-- Witness for C4 at step 0 and pitch C. -/
theorem fifths_is_circle_of_fifths_witness :
    0 < 11 ∧ noteC ∈ music.notes ∧
      (music.fifths.getD 1 default).index =
        ((music.fifths.getD 0 default).index + 7) % 12 ∧
      music.fifths.count noteC = 1 :=
  ⟨by decide, by decide, fifths_is_circle_of_fifths.2.2.1 0 (by decide),
    fifths_is_circle_of_fifths.2.2.2.1 noteC (by decide)⟩

/-- Claim C5: for every catalog tonic and mode, `scale` has exactly 7
entries, degree 0 is exactly the tonic, and the 7 consecutive-degree
semitone intervals (including the wrap from degree 6 back to degree 0)
sum to 12. -/
theorem scale_intervals_sum_to_twelve :
    ∀ tonic ∈ music.notes, ∀ mode ∈ music.modes,
      (music.scale tonic mode).length = 7 ∧
      ((music.scale tonic mode).getD 0 default).note = tonic ∧
      ((List.range 7).map (fun i =>
        music.interval ((music.scale tonic mode).getD i default).note
          ((music.scale tonic mode).getD ((i + 1) % 7) default).note)).sum
        = 12 := by
  decide

/-- Witness for C5 at tonic C, mode Ionian. -/
theorem scale_intervals_sum_to_twelve_witness :
    noteC ∈ music.notes ∧ modeIonian ∈ music.modes ∧
      ((List.range 7).map (fun i =>
        music.interval ((music.scale noteC modeIonian).getD i default).note
          ((music.scale noteC modeIonian).getD ((i + 1) % 7) default).note)).sum
        = 12 :=
  ⟨by decide, by decide,
    (scale_intervals_sum_to_twelve noteC (by decide) modeIonian
      (by decide)).2.2⟩

set_option maxHeartbeats 4000000 in
/-- Claim C6: for every freshly built scale and every triad taken from one
of its degrees, `appendTriad` marks exactly the 3 degrees whose name equals
a triad pitch's name with that pitch's triad position, leaves every other
degree's marker `none`, and a fresh scale (no triad selected) has every
marker `none`. -/
theorem appendTriad_marks_selected_triad :
    ∀ tonic ∈ music.notes, ∀ mode ∈ music.modes, ∀ d < 7,
      (let s := music.scale tonic mode
       let tri := (s.getD d default).triad
       let marked := music.appendTriad s tri
       (∀ j < 7, (marked.getD j default).chordNote =
          (if (s.getD j default).name = tri.1.name then some 0
           else if (s.getD j default).name = tri.2.1.name then some 1
           else if (s.getD j default).name = tri.2.2.name then some 2
           else none)) ∧
       (marked.filter (fun n => n.chordNote ≠ none)).length = 3 ∧
       (∀ j < 7, (s.getD j default).chordNote = none)) := by
  decide

/-- Witness for C6 at tonic C, mode Ionian, degree 0, scale position 0. -/
theorem appendTriad_marks_selected_triad_witness :
    noteC ∈ music.notes ∧ modeIonian ∈ music.modes ∧ 0 < 7 ∧
      ((music.scale noteC modeIonian).getD 0 default).chordNote = none :=
  ⟨by decide, by decide, by decide,
    (appendTriad_marks_selected_triad noteC (by decide) modeIonian
      (by decide) 0 (by decide)).2.2 0 (by decide)⟩

/-- Counterexample to claim C7 as stated: with the triad (C, C, C), whose
three slots share the name C, the C degree of the C-Ionian scale ends up
marked with slot 2 (the last matching slot), not slot 0 (the first). -/
theorem appendTriad_first_match_counterexample :
    ((music.appendTriad (music.scale noteC modeIonian)
        (noteC, noteC, noteC)).getD 0 default).chordNote = some 2 ∧
      ((music.appendTriad (music.scale noteC modeIonian)
        (noteC, noteC, noteC)).getD 0 default).chordNote ≠ some 0 := by
  decide

/-- Processing one note with the inner `appendTriad` loop never changes its
name. -/
theorem appendTriadNote_name (t : Triad) (n : ScaleNote) :
    (music.appendTriadNote t n).name = n.name := by
  simp only [music.appendTriadNote, apply_ite ScaleNote.name, ite_self]

/-- The inner `appendTriad` loop sets the marker of a note to the last
matching triad slot, and leaves it unchanged when no slot matches. -/
theorem appendTriadNote_chordNote (t : Triad) (n : ScaleNote) :
    (music.appendTriadNote t n).chordNote =
      (if n.name = t.2.2.name then some 2
       else if n.name = t.2.1.name then some 1
       else if n.name = t.1.name then some 0
       else n.chordNote) := by
  simp only [music.appendTriadNote, apply_ite ScaleNote.name,
    apply_ite ScaleNote.chordNote, ite_self]

/-- Claim C7 (amended): for every scale and triad, a degree's marker after
`appendTriad` is the position of the LAST triad slot whose name matches the
degree's name (slot 2, then slot 1, then slot 0), and is unchanged when no
slot matches. -/
theorem appendTriad_last_match (t : Triad) (s : List ScaleNote) (j : Nat)
    (h : j < s.length) :
    ((music.appendTriad s t).getD j default).chordNote =
      (if (s.getD j default).name = t.2.2.name then some 2
       else if (s.getD j default).name = t.2.1.name then some 1
       else if (s.getD j default).name = t.1.name then some 0
       else (s.getD j default).chordNote) := by
  simp only [music.appendTriad, List.getD_eq_getElem?_getD, List.getElem?_map]
  cases hj : s[j]? with
  | none =>
    exact absurd (List.getElem?_eq_none_iff.mp hj) (Nat.not_le_of_lt h)
  | some n =>
    simp only [Option.map_some', Option.getD_some]
    exact appendTriadNote_chordNote t n

/-- Witness for C7's amended theorem: degree 0 of the C-Ionian scale,
matching both slot 1 and slot 2 of the triad (G, C, C), is marked with the
last matching slot, 2. -/
theorem appendTriad_last_match_witness :
    0 < (music.scale noteC modeIonian).length ∧
      ((music.appendTriad (music.scale noteC modeIonian)
        (noteG, noteC, noteC)).getD 0 default).chordNote = some 2 :=
  ⟨by decide,
    (appendTriad_last_match (noteG, noteC, noteC)
      (music.scale noteC modeIonian) 0 (by decide)).trans (by decide)⟩

/-- Claim C8: for every catalog tonic and mode, the 7 scale entries have
pairwise distinct pitch indices and pairwise distinct names. -/
theorem scale_degrees_distinct :
    ∀ tonic ∈ music.notes, ∀ mode ∈ music.modes,
      ((music.scale tonic mode).map (fun n => n.index)).Nodup ∧
      ((music.scale tonic mode).map (fun n => n.name)).Nodup := by
  decide

/-- Witness for C8 at tonic C, mode Ionian. -/
theorem scale_degrees_distinct_witness :
    noteC ∈ music.notes ∧ modeIonian ∈ music.modes ∧
      ((music.scale noteC modeIonian).map (fun n => n.name)).Nodup :=
  ⟨by decide, by decide,
    (scale_degrees_distinct noteC (by decide) modeIonian (by decide)).2⟩

/-- Claim C10: `appendTriad` never clears an existing marker — a degree
whose name matches none of the three triad slots keeps its `chordNote`
exactly as it was before the call. -/
theorem appendTriad_preserves_nonmatching (t : Triad) (s : List ScaleNote)
    (j : Nat) (h : j < s.length)
    (h0 : (s.getD j default).name ≠ t.1.name)
    (h1 : (s.getD j default).name ≠ t.2.1.name)
    (h2 : (s.getD j default).name ≠ t.2.2.name) :
    ((music.appendTriad s t).getD j default).chordNote =
      (s.getD j default).chordNote := by
  simp only [music.appendTriad, List.getD_eq_getElem?_getD,
    List.getElem?_map] at h0 h1 h2 ⊢
  cases hj : s[j]? with
  | none =>
    exact absurd (List.getElem?_eq_none_iff.mp hj) (Nat.not_le_of_lt h)
  | some n =>
    rw [hj] at h0 h1 h2
    simp only [Option.map_some', Option.getD_some] at h0 h1 h2 ⊢
    rw [appendTriadNote_chordNote, if_neg h2, if_neg h1, if_neg h0]

/-- Witness for C10: an already-marked degree keeps its marker when
annotated with the non-matching triad (C#, D#, F#). -/
theorem appendTriad_preserves_nonmatching_witness :
    0 < (music.scale noteC modeIonian).length ∧
      ((music.scale noteC modeIonian).getD 0 default).name ≠ noteCs.name ∧
      ((music.scale noteC modeIonian).getD 0 default).name ≠ noteDs.name ∧
      ((music.scale noteC modeIonian).getD 0 default).name ≠ noteFs.name ∧
      ((music.appendTriad (music.scale noteC modeIonian)
          (noteCs, noteDs, noteFs)).getD 0 default).chordNote =
        ((music.scale noteC modeIonian).getD 0 default).chordNote :=
  ⟨by decide, by decide, by decide, by decide,
    appendTriad_preserves_nonmatching (noteCs, noteDs, noteFs)
      (music.scale noteC modeIonian) 0 (by decide) (by decide) (by decide)
      (by decide)⟩
